import Mathlib

set_option linter.unusedVariables false

/-!
Verification of the MO2 Game-Registry-Proxy plugin.

This file shallowly embeds the `Proxy` class of
`src/mo2-game-registry-proxy/proxy.py` and proves properties of its two
lifecycle hooks `on_about_to_run` (before-launch) and `on_finished_run`
(after-exit).

Modelling decisions:
- The Windows registry is modelled as a total map from locations
  `(hive, subKeyPath, valueName)` to `Option String` (`none` = the key or
  value is missing).
- Path canonicalization (`QDir(...).canonicalPath()`) is an abstract
  parameter `canon : String → String`; a `Path` is modelled as its string.
- The elevated, fire-and-forget write performed by `set_reg_value` via
  `ShellExecuteW("runas", "reg.exe", ...)` is modelled with an explicit
  `applied : Bool` argument saying whether the issued write actually takes
  effect on the registry (the code never observes this; it only logs).
  A `RegEvent.write` event is recorded whenever a write is issued, and a
  `RegEvent.read` event whenever the registry is opened for reading.
- Host-provided data (`pluginSetting` enabled flag, the `disabled_apps`
  setting string, the managed game's short name and directory) is a record
  `Env` sampled at each call, since the code re-reads it on every call.
-/

/-- Lower-case a string character-wise, modelling Python `str.lower()`
(ASCII range, which covers the executable names involved). -/
def pyLower (s : String) : String :=
  String.mk (s.data.map Char.toLower)

/-- Split a character list on the semicolon separator, accumulating the
current chunk, modelling Python `str.split(";")`. -/
def splitSemiAux : List Char → List Char → List String
  | [], acc => [String.mk acc.reverse]
  | c :: cs, acc =>
    if c = ';' then String.mk acc.reverse :: splitSemiAux cs []
    else splitSemiAux cs (c :: acc)

/-- Python `setting.split(";")` (so `""` splits to `[""]`). -/
def pySplitSemicolon (s : String) : List String :=
  splitSemiAux s.data []

/-- Final path component, modelling Python `Path(app_name).name` on
Windows: the characters after the last path separator. -/
def pyBasename (s : String) : String :=
  String.mk ((s.data.reverse.takeWhile (fun c => !(c = '\\' || c = '/'))).reverse)

/-- Python `str.strip()`: drop leading and trailing whitespace. The code
only uses it for the truthiness test `if value.strip():`. -/
def pyStrip (s : String) : String :=
  String.mk (((s.data.dropWhile Char.isWhitespace).reverse.dropWhile
    Char.isWhitespace).reverse)

/-- Numeric value of `winreg.HKEY_LOCAL_MACHINE` (0x80000002). -/
def HKEY_LOCAL_MACHINE : Nat := 2147483650

/-- A registry location: `(hive, sub_key, value_name)`, matching the
`tuple[int, str, str]` entries of `GAME_REGISTRY_KEYS`. -/
abbrev Location := Nat × String × String

/-- The `Proxy.GAME_REGISTRY_KEYS` table, verbatim from the source. -/
def GAME_REGISTRY_KEYS : List (String × Location) :=
  [ ("Enderal",
      (HKEY_LOCAL_MACHINE, "Software\\WOW6432Node\\SureAI\\Enderal",
       "Install_Path")),
    ("Fallout3",
      (HKEY_LOCAL_MACHINE, "Software\\WOW6432Node\\Bethesda Softworks\\Fallout3",
       "Installed Path")),
    ("Fallout4",
      (HKEY_LOCAL_MACHINE, "Software\\WOW6432Node\\Bethesda Softworks\\Fallout4",
       "Installed Path")),
    ("Fallout4VR",
      (HKEY_LOCAL_MACHINE, "Software\\WOW6432Node\\Bethesda Softworks\\Fallout 4 VR",
       "Installed Path")),
    ("FalloutNV",
      (HKEY_LOCAL_MACHINE, "Software\\WOW6432Node\\Bethesda Softworks\\FalloutNV",
       "Installed Path")),
    ("Morrowind",
      (HKEY_LOCAL_MACHINE, "Software\\WOW6432Node\\Bethesda Softworks\\Morrowind",
       "Installed Path")),
    ("Oblivion",
      (HKEY_LOCAL_MACHINE, "Software\\WOW6432Node\\Bethesda Softworks\\Oblivion",
       "Installed Path")),
    ("Skyrim",
      (HKEY_LOCAL_MACHINE, "Software\\WOW6432Node\\Bethesda Softworks\\Skyrim",
       "Installed Path")),
    ("SkyrimSE",
      (HKEY_LOCAL_MACHINE,
       "Software\\WOW6432Node\\Bethesda Softworks\\Skyrim Special Edition",
       "Installed Path")),
    ("SkyrimVR",
      (HKEY_LOCAL_MACHINE, "Software\\WOW6432Node\\Bethesda Softworks\\Skyrim VR",
       "Installed Path")),
    ("TTW",
      (HKEY_LOCAL_MACHINE, "Software\\WOW6432Node\\Bethesda Softworks\\FalloutNV",
       "Installed Path")) ]

/-- `Proxy.__get_game_reg_key`: dictionary lookup of the managed game's
short name; `none` when the game is unsupported. -/
def get_game_reg_key (gameName : String) : Option Location :=
  (GAME_REGISTRY_KEYS.find? (fun e => e.1 == gameName)).map Prod.snd

/-- The registry (restricted to string values in the 32-bit view, the only
view the code touches: reads use `KEY_WOW64_32KEY`, writes use `/reg:32`). -/
abbrev Registry := Location → Option String

/-- Point update of the registry. -/
def regSet (reg : Registry) (loc : Location) (v : String) : Registry :=
  fun l => if l = loc then some v else reg l

/-- Observable registry accesses issued by the code. -/
inductive RegEvent where
  | read (loc : Location)
  | write (loc : Location) (value : String)
deriving DecidableEq

/-- Host-provided data read by the `Proxy` on each call:
the `enableProxy` plugin setting, the raw `disabled_apps` setting string,
`managedGame().gameShortName()` and `managedGame().gameDirectory()`. -/
structure Env where
  enabled : Bool
  disabledAppsSetting : String
  gameName : String
  gameDir : String
deriving DecidableEq

/-- The one piece of mutable state of `Proxy`:
`__original_reg_value : Optional[Path]`. -/
structure ProxyState where
  originalRegValue : Option String
deriving DecidableEq

/-- `Proxy.__is_active`: the boolean `enableProxy` plugin setting. -/
def is_active (env : Env) : Bool :=
  env.enabled

/-- `Proxy.__get_disabled_apps`: the `disabled_apps` setting split on
semicolons and lower-cased. -/
def get_disabled_apps (env : Env) : List String :=
  (pySplitSemicolon env.disabledAppsSetting).map pyLower

/-- `Proxy.get_game_folder`: the managed game's directory, canonicalized
by `QDir.canonicalPath`. -/
def get_game_folder (canon : String → String) (env : Env) : String :=
  canon env.gameDir

/-- `Proxy.get_reg_value`: read the current registry value for the game
folder. Returns `none` when the game is unsupported (no read is issued),
when the key or value is missing, or when the stored string is
empty/whitespace; otherwise the canonicalized path. Also returns the list
of registry accesses issued. -/
def get_reg_value (canon : String → String) (env : Env) (reg : Registry) :
    Option String × List RegEvent :=
  match get_game_reg_key env.gameName with
  | none => (none, [])
  | some loc =>
    match reg loc with
    | none => (none, [RegEvent.read loc])
    | some v =>
      (if pyStrip v ≠ "" then some (canon v) else none, [RegEvent.read loc])

/-- Quote-escaping applied to the value before it is spliced into the
`reg.exe` argument string (`value.replace(quote, backslash-quote)`); the
command-line parser of the helper undoes it, so the registry receives the
original `value`. -/
def escapeQuotes (s : String) : String :=
  String.mk (s.data.flatMap (fun c => if c = '"' then ['\\', '"'] else [c]))

/-- `Proxy.set_reg_value`: issue an elevated registry write via
`ShellExecuteW("runas", "reg.exe", add ... /f /reg:32)`. No write is
issued when the game is unsupported or the hive is not HKLM. The launch is
fire-and-forget: `applied` says whether the issued write takes effect
(`ShellExecuteW` succeeded with a return value above 32 and the helper
completed); the code itself only logs the outcome. Returns the new
registry and the issued accesses. -/
def set_reg_value (env : Env) (reg : Registry) (value : String)
    (applied : Bool) : Registry × List RegEvent :=
  match get_game_reg_key env.gameName with
  | none => (reg, [])
  | some loc =>
    if loc.1 ≠ HKEY_LOCAL_MACHINE then (reg, [])
    else
      ((if applied then regSet reg loc value else reg),
       [RegEvent.write loc value])

/-- `Proxy.on_about_to_run`: the before-launch hook. Returns the
`allow`-launch boolean, the new proxy state, the new registry, and the
issued registry accesses. -/
def on_about_to_run (canon : String → String) (env : Env) (st : ProxyState)
    (reg : Registry) (appName : String) (applied : Bool) :
    Bool × ProxyState × Registry × List RegEvent :=
  if !is_active env
      || (get_disabled_apps env).contains (pyLower (pyBasename appName)) then
    (true, st, reg, [])
  else
    if (get_reg_value canon env reg).1 ≠ some (get_game_folder canon env) then
      (true, ⟨(get_reg_value canon env reg).1⟩,
       (set_reg_value env reg (get_game_folder canon env) applied).1,
       (get_reg_value canon env reg).2
         ++ (set_reg_value env reg (get_game_folder canon env) applied).2)
    else
      (true, st, reg, (get_reg_value canon env reg).2)

/-- `Proxy.on_finished_run`: the after-exit hook. The source guard is
`if not self.__is_active() or self.__original_reg_value is None: return`;
it is rendered here with the `None` test as the outer match (the observable
behaviour of the two orderings is identical since both no-op). `appName`
and `returnCode` are received and ignored, exactly as in the source. -/
def on_finished_run (env : Env) (st : ProxyState) (reg : Registry)
    (appName : String) (returnCode : Int) (applied : Bool) :
    ProxyState × Registry × List RegEvent :=
  match st.originalRegValue with
  | none => (st, reg, [])
  | some orig =>
    if !is_active env then (st, reg, [])
    else
      (⟨none⟩, (set_reg_value env reg orig applied).1,
       (set_reg_value env reg orig applied).2)

/-- One host-driven call to the proxy: a before-launch or an after-exit
notification, together with the host configuration in force at that call
and whether the issued write (if any) takes effect. -/
inductive Op where
  | beforeLaunch (env : Env) (app : String) (applied : Bool)
  | afterExit (env : Env) (app : String) (code : Int) (applied : Bool)

/-- State of a run: the proxy state, the registry, and a ghost flag
`inEffect` modelled from the spec's notion of a registry swap being
"in effect" for a launched process whose exit has not yet been observed:
it becomes true when a before-launch call issues a swap write, persists
across before-launch calls that issue none, and is false once the host
reports the exit (the spec scopes a swap to one launch/exit pair). -/
structure RunState where
  proxy : ProxyState
  reg : Registry
  inEffect : Bool

/-- Whether a registry access is a write. -/
def isWriteEv : RegEvent → Bool
  | RegEvent.write _ _ => true
  | RegEvent.read _ => false

/-- Run one host call through the proxy, updating the ghost flag. -/
def stepOp (canon : String → String) (s : RunState) (op : Op) : RunState :=
  match op with
  | Op.beforeLaunch env app applied =>
    ⟨(on_about_to_run canon env s.proxy s.reg app applied).2.1,
     (on_about_to_run canon env s.proxy s.reg app applied).2.2.1,
     s.inEffect
       || (on_about_to_run canon env s.proxy s.reg app applied).2.2.2.any
            isWriteEv⟩
  | Op.afterExit env app code applied =>
    ⟨(on_finished_run env s.proxy s.reg app code applied).1,
     (on_finished_run env s.proxy s.reg app code applied).2.1,
     false⟩

/-- Run a sequence of host calls. -/
def runOps (canon : String → String) (s : RunState) : List Op → RunState
  | [] => s
  | op :: ops => runOps canon (stepOp canon s op) ops

/-- A "clean" call: the feature is enabled, the game is supported, and a
before-launch call observes a present registry value. -/
def cleanOp (canon : String → String) (s : RunState) : Op → Bool
  | Op.beforeLaunch env _ _ =>
    env.enabled && (get_game_reg_key env.gameName).isSome
      && (get_reg_value canon env s.reg).1.isSome
  | Op.afterExit env _ _ _ => env.enabled

/-- A run is clean when every call in it is clean in the state it runs in. -/
def cleanRun (canon : String → String) (s : RunState) : List Op → Bool
  | [] => true
  | op :: ops => cleanOp canon s op && cleanRun canon (stepOp canon s op) ops

/-- Fixture: the registry location of SkyrimSE. -/
def locSkyrimSE : Location :=
  (HKEY_LOCAL_MACHINE,
   "Software\\WOW6432Node\\Bethesda Softworks\\Skyrim Special Edition",
   "Installed Path")

/-- Fixture: feature enabled, exclusion list `"x.exe"`, managing SkyrimSE
whose instance directory is `D:/New`. -/
def envP : Env := ⟨true, "x.exe", "SkyrimSE", "D:/New"⟩

/-- Fixture: as `envP` but with the feature disabled. -/
def envOff : Env := ⟨false, "x.exe", "SkyrimSE", "D:/New"⟩

/-- Fixture: feature enabled but the managed game is not in the table. -/
def envUnsup : Env := ⟨true, "x.exe", "Starfield", "D:/New"⟩

/-- Fixture: registry with no value anywhere. -/
def regAbsent : Registry := fun _ => none

/-- Fixture: registry holding `C:/Old` at the SkyrimSE location. -/
def regOld : Registry :=
  fun l => if l = locSkyrimSE then some "C:/Old" else none

/-- Fixture: registry holding `D:/New` (the instance folder of `envP`) at
the SkyrimSE location. -/
def regNew : Registry :=
  fun l => if l = locSkyrimSE then some "D:/New" else none

/-- Fixture: a clean launch/exit pair under `envP`, starting from `regOld`. -/
def opsClean : List Op :=
  [Op.beforeLaunch envP "app.exe" true, Op.afterExit envP "app.exe" 0 true]

/-- Fixture: a launch under `envP` whose exit is reported while the
feature is disabled. -/
def opsLatch : List Op :=
  [Op.beforeLaunch envP "app.exe" true, Op.afterExit envOff "app.exe" 0 true]

/-- Every entry of the game table lives in the HKLM hive, so a successful
table lookup returns an HKLM location. -/
theorem hive_of_get_game_reg_key (g : String) (loc : Location)
    (h : get_game_reg_key g = some loc) : loc.1 = HKEY_LOCAL_MACHINE := by
  unfold get_game_reg_key at h
  rcases hf : GAME_REGISTRY_KEYS.find? (fun e => e.1 == g) with _ | e
  · rw [hf] at h
    simp at h
  · rw [hf] at h
    simp at h
    have hm := List.mem_of_find?_eq_some hf
    have hall : ∀ x ∈ GAME_REGISTRY_KEYS, x.2.1 = HKEY_LOCAL_MACHINE := by
      decide
    rw [← h]
    exact hall e hm

/-- Registry reads issue no write events. -/
theorem get_reg_value_events_no_write (canon : String → String) (env : Env)
    (reg : Registry) :
    (get_reg_value canon env reg).2.any isWriteEv = false := by
  unfold get_reg_value
  split
  · rfl
  · split
    · rfl
    · rfl

/-- Characterization of a successful registry read: the game is supported
and the stored string is present, non-blank, and canonicalizes to the
returned path. -/
theorem get_reg_value_some (canon : String → String) (env : Env)
    (reg : Registry) (p : String)
    (h : (get_reg_value canon env reg).1 = some p) :
    ∃ loc v, get_game_reg_key env.gameName = some loc ∧ reg loc = some v ∧
      pyStrip v ≠ "" ∧ canon v = p := by
  unfold get_reg_value at h
  rcases hk : get_game_reg_key env.gameName with _ | loc
  · rw [hk] at h
    exact Option.noConfusion h
  · simp only [hk] at h
    rcases hv : reg loc with _ | v
    · rw [hv] at h
      exact Option.noConfusion h
    · simp only [hv] at h
      refine ⟨loc, v, rfl, hv, ?_⟩
      revert h
      split
      · rename_i hsv
        intro h
        exact ⟨hsv, Option.some.inj h⟩
      · intro h
        exact Option.noConfusion h

/-- Behaviour of `set_reg_value` for a supported (hence HKLM) game: a write
is issued, and the registry is updated exactly when the write takes effect. -/
theorem set_reg_value_eq (env : Env) (reg : Registry) (value : String)
    (ap : Bool) (loc : Location)
    (hk : get_game_reg_key env.gameName = some loc) :
    set_reg_value env reg value ap
      = ((if ap then regSet reg loc value else reg),
         [RegEvent.write loc value]) := by
  have hH := hive_of_get_game_reg_key _ _ hk
  unfold set_reg_value
  simp only [hk, hH]
  simp

/-- `set_reg_value` when the issued write takes effect. -/
theorem set_reg_value_applied (env : Env) (reg : Registry) (value : String)
    (loc : Location) (hk : get_game_reg_key env.gameName = some loc) :
    set_reg_value env reg value true
      = (regSet reg loc value, [RegEvent.write loc value]) := by
  rw [set_reg_value_eq env reg value true loc hk]
  simp

/-- `on_about_to_run` when disabled or the executable is excluded. -/
theorem on_about_to_run_skip (canon : String → String) (env : Env)
    (st : ProxyState) (reg : Registry) (app : String) (ap : Bool)
    (hg : (!is_active env
      || (get_disabled_apps env).contains (pyLower (pyBasename app))) = true) :
    on_about_to_run canon env st reg app ap = (true, st, reg, []) := by
  unfold on_about_to_run
  split
  · rfl
  · rename_i h
    exact absurd hg h

/-- `on_about_to_run` when active and the observed value already equals the
game folder: only the read is issued, nothing changes. -/
theorem on_about_to_run_noswap (canon : String → String) (env : Env)
    (st : ProxyState) (reg : Registry) (app : String) (ap : Bool)
    (hen : is_active env = true)
    (hex : (get_disabled_apps env).contains (pyLower (pyBasename app)) = false)
    (heq : (get_reg_value canon env reg).1 = some (get_game_folder canon env)) :
    on_about_to_run canon env st reg app ap
      = (true, st, reg, (get_reg_value canon env reg).2) := by
  unfold on_about_to_run
  split
  · rename_i hg
    rw [hen, hex] at hg
    exact Bool.noConfusion hg
  · split
    · rename_i h
      exact absurd heq h
    · rfl

/-- `on_about_to_run` when active and the observed value differs from the
game folder: the original is recorded and a swap write is issued. -/
theorem on_about_to_run_swap (canon : String → String) (env : Env)
    (st : ProxyState) (reg : Registry) (app : String) (ap : Bool)
    (hen : is_active env = true)
    (hex : (get_disabled_apps env).contains (pyLower (pyBasename app)) = false)
    (hne : (get_reg_value canon env reg).1
      ≠ some (get_game_folder canon env)) :
    on_about_to_run canon env st reg app ap
      = (true, ⟨(get_reg_value canon env reg).1⟩,
         (set_reg_value env reg (get_game_folder canon env) ap).1,
         (get_reg_value canon env reg).2
           ++ (set_reg_value env reg (get_game_folder canon env) ap).2) := by
  unfold on_about_to_run
  split
  · rename_i hg
    rw [hen, hex] at hg
    exact Bool.noConfusion hg
  · rfl

/-- `on_finished_run` with no recorded original value is a no-op. -/
theorem on_finished_run_none (env : Env) (st : ProxyState) (reg : Registry)
    (app : String) (c : Int) (ap : Bool)
    (h : st.originalRegValue = none) :
    on_finished_run env st reg app c ap = (st, reg, []) := by
  unfold on_finished_run
  split
  · rfl
  · rename_i orig horig
    rw [h] at horig
    exact Option.noConfusion horig

/-- `on_finished_run` while disabled is a no-op. -/
theorem on_finished_run_disabled (env : Env) (st : ProxyState)
    (reg : Registry) (app : String) (c : Int) (ap : Bool)
    (h : is_active env = false) :
    on_finished_run env st reg app c ap = (st, reg, []) := by
  unfold on_finished_run
  split
  · rfl
  · split
    · rfl
    · rename_i hg
      rw [h] at hg
      exact absurd rfl hg

/-- `on_finished_run` while enabled with a recorded original issues the
restoring write and clears the state. -/
theorem on_finished_run_restore (env : Env) (st : ProxyState)
    (reg : Registry) (app : String) (c : Int) (ap : Bool) (p : String)
    (hp : st.originalRegValue = some p) (hen : is_active env = true) :
    on_finished_run env st reg app c ap
      = (⟨none⟩, (set_reg_value env reg p ap).1,
         (set_reg_value env reg p ap).2) := by
  unfold on_finished_run
  split
  · rename_i h
    rw [hp] at h
    exact Option.noConfusion h
  · rename_i orig horig
    rw [hp] at horig
    cases horig
    split
    · rename_i hg
      rw [hen] at hg
      exact Bool.noConfusion hg
    · rfl

/-- A clean call preserves agreement between the recorded original value
and the ghost swap-in-effect flag. -/
theorem stepOp_preserves (canon : String → String) (s : RunState) (op : Op)
    (hclean : cleanOp canon s op = true)
    (hinv : s.proxy.originalRegValue.isSome = s.inEffect) :
    (stepOp canon s op).proxy.originalRegValue.isSome
      = (stepOp canon s op).inEffect := by
  cases op with
  | beforeLaunch env app applied =>
    simp only [cleanOp, Bool.and_eq_true] at hclean
    obtain ⟨⟨hen, hsup⟩, hpres⟩ := hclean
    have hen' : is_active env = true := hen
    rcases hk : get_game_reg_key env.gameName with _ | loc
    · rw [hk] at hsup
      exact Bool.noConfusion hsup
    rcases hobs : (get_reg_value canon env s.reg).1 with _ | p
    · rw [hobs] at hpres
      exact Bool.noConfusion hpres
    cases hex : (get_disabled_apps env).contains (pyLower (pyBasename app)) with
    | true =>
      have hg : (!is_active env
          || (get_disabled_apps env).contains (pyLower (pyBasename app)))
          = true := by
        rw [hex]
        simp
      simp only [stepOp]
      rw [on_about_to_run_skip canon env s.proxy s.reg app applied hg]
      dsimp only
      simp [hinv]
    | false =>
      by_cases hpg : p = get_game_folder canon env
      · have heq : (get_reg_value canon env s.reg).1
            = some (get_game_folder canon env) := by rw [hobs, hpg]
        simp only [stepOp]
        rw [on_about_to_run_noswap canon env s.proxy s.reg app applied
          hen' hex heq]
        dsimp only
        rw [get_reg_value_events_no_write canon env s.reg]
        simp [hinv]
      · have hneq : (get_reg_value canon env s.reg).1
            ≠ some (get_game_folder canon env) := by
          rw [hobs]
          intro h
          exact hpg (Option.some.inj h)
        simp only [stepOp]
        rw [on_about_to_run_swap canon env s.proxy s.reg app applied
          hen' hex hneq]
        dsimp only
        rw [hobs,
          set_reg_value_eq env s.reg (get_game_folder canon env) applied loc hk]
        dsimp only
        simp [isWriteEv]
  | afterExit env app code applied =>
    simp only [cleanOp] at hclean
    have hen' : is_active env = true := hclean
    simp only [stepOp]
    rcases hp : s.proxy.originalRegValue with _ | p
    · rw [on_finished_run_none env s.proxy s.reg app code applied hp]
      dsimp only
      rw [hp]
      rfl
    · rw [on_finished_run_restore env s.proxy s.reg app code applied p hp hen']
      dsimp only
      rfl

/-- Clean runs preserve agreement between the recorded original value and
the ghost swap-in-effect flag. -/
theorem runOps_preserves (canon : String → String) :
    ∀ (ops : List Op) (s : RunState),
      cleanRun canon s ops = true →
      s.proxy.originalRegValue.isSome = s.inEffect →
      (runOps canon s ops).proxy.originalRegValue.isSome
        = (runOps canon s ops).inEffect
  | [], _, _, hinv => hinv
  | op :: ops, s, hclean, hinv => by
    simp only [cleanRun, Bool.and_eq_true] at hclean
    simp only [runOps]
    exact runOps_preserves canon ops (stepOp canon s op) hclean.2
      (stepOp_preserves canon s op hclean.1 hinv)

/-- Claim C1 counterexample: with the registry value absent before
`beforeLaunch`, the round trip leaves the registry holding the game
folder, not the original absence, although every issued write took
effect. -/
theorem C1_counterexample :
    (get_reg_value id envP regAbsent).1 = none ∧
    regAbsent locSkyrimSE = none ∧
    (on_finished_run envP
      (on_about_to_run id envP ⟨none⟩ regAbsent "game.exe" true).2.1
      (on_about_to_run id envP ⟨none⟩ regAbsent "game.exe" true).2.2.1
      "game.exe" 0 true).2.1 locSkyrimSE = some "D:/New" := by
  decide

/-- Claim C1 (amended): when the value observed immediately before
`beforeLaunch` is a present canonical, non-blank path `p`, running
`beforeLaunch` then `afterExit` from an empty `SwapState` with every
issued write taking effect leaves the observed registry value equal to
`p`, for every exit code. -/
theorem C1_roundTrip_present (canon : String → String) (env : Env)
    (reg : Registry) (app : String) (c : Int) (p : String)
    (hobs : (get_reg_value canon env reg).1 = some p)
    (hidem : canon p = p) (hstrip : pyStrip p ≠ "") :
    (get_reg_value canon env
      (on_finished_run env
        (on_about_to_run canon env ⟨none⟩ reg app true).2.1
        (on_about_to_run canon env ⟨none⟩ reg app true).2.2.1
        app c true).2.1).1 = some p := by
  obtain ⟨loc, v, hk, hv, hsv, hcv⟩ := get_reg_value_some canon env reg p hobs
  cases hg : (!is_active env
      || (get_disabled_apps env).contains (pyLower (pyBasename app))) with
  | true =>
    rw [on_about_to_run_skip canon env ⟨none⟩ reg app true hg]
    dsimp only
    rw [on_finished_run_none env ⟨none⟩ reg app c true rfl]
    exact hobs
  | false =>
    have hen : is_active env = true := by
      cases hA : is_active env
      · rw [hA] at hg
        simp at hg
      · rfl
    have hex : (get_disabled_apps env).contains (pyLower (pyBasename app))
        = false := by
      cases hB : (get_disabled_apps env).contains (pyLower (pyBasename app))
      · rfl
      · rw [hB] at hg
        simp at hg
    by_cases hpg : p = get_game_folder canon env
    · have heq : (get_reg_value canon env reg).1
          = some (get_game_folder canon env) := by rw [hobs, hpg]
      rw [on_about_to_run_noswap canon env ⟨none⟩ reg app true hen hex heq]
      dsimp only
      rw [on_finished_run_none env ⟨none⟩ reg app c true rfl]
      exact hobs
    · have hne : (get_reg_value canon env reg).1
          ≠ some (get_game_folder canon env) := by
        rw [hobs]
        intro hcontra
        exact hpg (Option.some.inj hcontra)
      rw [on_about_to_run_swap canon env ⟨none⟩ reg app true hen hex hne]
      dsimp only
      rw [hobs, set_reg_value_applied env reg (get_game_folder canon env) loc hk]
      dsimp only
      rw [on_finished_run_restore env ⟨some p⟩
        (regSet reg loc (get_game_folder canon env)) app c true p rfl hen]
      dsimp only
      rw [set_reg_value_applied env
        (regSet reg loc (get_game_folder canon env)) p loc hk]
      dsimp only
      unfold get_reg_value
      simp only [hk]
      simp [regSet, hstrip, hidem]

/-- Claim C1 witness: the round trip restores the present value `C:/Old`. -/
theorem C1_witness :
    (get_reg_value id envP regOld).1 = some "C:/Old" ∧
    (get_reg_value id envP
      (on_finished_run envP
        (on_about_to_run id envP ⟨none⟩ regOld "app.exe" true).2.1
        (on_about_to_run id envP ⟨none⟩ regOld "app.exe" true).2.2.1
        "app.exe" 0 true).2.1).1 = some "C:/Old" :=
  ⟨by decide, C1_roundTrip_present id envP regOld "app.exe" 0 "C:/Old"
    (by decide) rfl (by decide)⟩

/-- Claim C2 counterexample: the registry value is absent before
`beforeLaunch`, yet after the matching `afterExit` the observed value is
the game folder, not absent. -/
theorem C2_counterexample :
    (get_reg_value id envP regAbsent).1 = none ∧
    (get_reg_value id envP
      (on_finished_run envP
        (on_about_to_run id envP ⟨none⟩ regAbsent "game.exe" true).2.1
        (on_about_to_run id envP ⟨none⟩ regAbsent "game.exe" true).2.2.1
        "game.exe" 0 true).2.1).1 = some "D:/New" := by
  decide

/-- Claim C2 (amended): if the registry value is absent before
`beforeLaunch` while the swap is active for a supported game, the recorded
original is `None`, so the matching `afterExit` performs no restore and
the registry is left holding the game folder (present), for every exit
code. -/
theorem C2_absent_swap_no_restore (canon : String → String) (env : Env)
    (reg : Registry) (app : String) (c : Int) (loc : Location)
    (hen : is_active env = true)
    (hex : (get_disabled_apps env).contains (pyLower (pyBasename app)) = false)
    (hk : get_game_reg_key env.gameName = some loc)
    (habs : (get_reg_value canon env reg).1 = none) :
    (on_finished_run env
      (on_about_to_run canon env ⟨none⟩ reg app true).2.1
      (on_about_to_run canon env ⟨none⟩ reg app true).2.2.1
      app c true).2.1 loc = some (get_game_folder canon env) ∧
    (on_finished_run env
      (on_about_to_run canon env ⟨none⟩ reg app true).2.1
      (on_about_to_run canon env ⟨none⟩ reg app true).2.2.1
      app c true).1.originalRegValue = none := by
  have hne : (get_reg_value canon env reg).1
      ≠ some (get_game_folder canon env) := by
    rw [habs]
    exact fun h => Option.noConfusion h
  rw [on_about_to_run_swap canon env ⟨none⟩ reg app true hen hex hne]
  dsimp only
  rw [habs, set_reg_value_applied env reg (get_game_folder canon env) loc hk]
  dsimp only
  rw [on_finished_run_none env ⟨none⟩
    (regSet reg loc (get_game_folder canon env)) app c true rfl]
  dsimp only
  constructor
  · simp [regSet]
  · rfl

/-- Claim C2 witness: the absent-value scenario concretely ends with the
game folder in the registry and an empty `SwapState`. -/
theorem C2_witness :
    (on_finished_run envP
      (on_about_to_run id envP ⟨none⟩ regAbsent "app.exe" true).2.1
      (on_about_to_run id envP ⟨none⟩ regAbsent "app.exe" true).2.2.1
      "app.exe" 0 true).2.1 locSkyrimSE = some (get_game_folder id envP) ∧
    (on_finished_run envP
      (on_about_to_run id envP ⟨none⟩ regAbsent "app.exe" true).2.1
      (on_about_to_run id envP ⟨none⟩ regAbsent "app.exe" true).2.2.1
      "app.exe" 0 true).1.originalRegValue = none :=
  C2_absent_swap_no_restore id envP regAbsent "app.exe" 0 locSkyrimSE
    (by decide) (by decide) (by decide) (by decide)

/-- Claim C3 counterexample: with the swap write not applied (a failed
elevation launch), the original value is still recorded and the registry
cell is unchanged, and the subsequent `afterExit` nevertheless issues a
restoring write. -/
theorem C3_counterexample :
    (on_about_to_run id envP ⟨none⟩ regOld "app.exe" false).2.1
      = ⟨some "C:/Old"⟩ ∧
    (on_about_to_run id envP ⟨none⟩ regOld "app.exe" false).2.2.1 locSkyrimSE
      = some "C:/Old" ∧
    (on_finished_run envP
      (on_about_to_run id envP ⟨none⟩ regOld "app.exe" false).2.1
      (on_about_to_run id envP ⟨none⟩ regOld "app.exe" false).2.2.1
      "app.exe" 5 true).2.2 = [RegEvent.write locSkyrimSE "C:/Old"] := by
  decide

/-- Claim C3 (amended): `on_about_to_run` records the original value
before the swap write and irrespective of whether that write takes
effect, and `on_finished_run` issues the restoring write whenever the
feature is enabled and an original is recorded — also for a swap whose
write failed. -/
theorem C3_original_recorded_regardless (canon : String → String) (env : Env)
    (reg reg2 : Registry) (app app2 : String) (c : Int) (ap ap2 : Bool)
    (loc : Location) (p : String)
    (hen : is_active env = true)
    (hex : (get_disabled_apps env).contains (pyLower (pyBasename app)) = false)
    (hk : get_game_reg_key env.gameName = some loc)
    (hobs : (get_reg_value canon env reg).1 = some p)
    (hne : p ≠ get_game_folder canon env) :
    (on_about_to_run canon env ⟨none⟩ reg app ap).2.1 = ⟨some p⟩ ∧
    (on_finished_run env ⟨some p⟩ reg2 app2 c ap2).2.2
      = [RegEvent.write loc p] := by
  have hneq : (get_reg_value canon env reg).1
      ≠ some (get_game_folder canon env) := by
    rw [hobs]
    intro h
    exact hne (Option.some.inj h)
  constructor
  · rw [on_about_to_run_swap canon env ⟨none⟩ reg app ap hen hex hneq]
    dsimp only
    rw [hobs]
  · rw [on_finished_run_restore env ⟨some p⟩ reg2 app2 c ap2 p rfl hen]
    dsimp only
    rw [set_reg_value_eq env reg2 p ap2 loc hk]

/-- Claim C3 witness: the amended behaviour at a concrete failed swap. -/
theorem C3_witness :
    (on_about_to_run id envP ⟨none⟩ regOld "app.exe" false).2.1
      = ⟨some "C:/Old"⟩ ∧
    (on_finished_run envP ⟨some "C:/Old"⟩ regOld "app.exe" 5 true).2.2
      = [RegEvent.write locSkyrimSE "C:/Old"] :=
  C3_original_recorded_regardless id envP regOld regOld "app.exe" "app.exe"
    5 false true locSkyrimSE "C:/Old"
    (by decide) (by decide) (by decide) (by decide) (by decide)

/-- Claim C4 counterexample: after a swap is made and the exit is then
reported while the feature is disabled, the reachable state has a
non-empty `originalRegValue` although no launched process with an
unobserved exit remains, refuting the claimed equivalence. -/
theorem C4_counterexample :
    (runOps id ⟨⟨none⟩, regOld, false⟩ opsLatch).proxy.originalRegValue
      = some "C:/Old" ∧
    (runOps id ⟨⟨none⟩, regOld, false⟩ opsLatch).inEffect = false := by
  decide

/-- Claim C4 (amended): along any run in which every call happens with the
feature enabled, the game supported, and every before-launch call
observing a present registry value, `SwapState.originalValue` is non-empty
exactly when a registry swap is in effect for a launched process whose
exit has not yet been observed. -/
theorem C4_invariant_clean_runs (canon : String → String) (reg : Registry)
    (ops : List Op)
    (hclean : cleanRun canon ⟨⟨none⟩, reg, false⟩ ops = true) :
    ((runOps canon ⟨⟨none⟩, reg, false⟩ ops).proxy.originalRegValue ≠ none
      ↔ (runOps canon ⟨⟨none⟩, reg, false⟩ ops).inEffect = true) := by
  have h := runOps_preserves canon ops ⟨⟨none⟩, reg, false⟩ hclean rfl
  rw [← h]
  exact Option.isSome_iff_ne_none.symm

/-- Claim C4 witness: the invariant instantiated on a concrete clean
launch/exit pair. -/
theorem C4_witness :
    cleanRun id ⟨⟨none⟩, regOld, false⟩ opsClean = true ∧
    ((runOps id ⟨⟨none⟩, regOld, false⟩ opsClean).proxy.originalRegValue
        ≠ none
      ↔ (runOps id ⟨⟨none⟩, regOld, false⟩ opsClean).inEffect = true) :=
  ⟨by decide, C4_invariant_clean_runs id regOld opsClean (by decide)⟩

/-- Claim C5: an `afterExit` call that issues a restoring write clears
`SwapState.originalValue`, and an `afterExit` call with no recorded
original performs no registry write and changes nothing. -/
theorem C5_restore_at_most_once (env : Env) (st : ProxyState) (reg : Registry)
    (app : String) (c : Int) (ap : Bool) :
    ((on_finished_run env st reg app c ap).2.2 ≠ [] →
      (on_finished_run env st reg app c ap).1.originalRegValue = none) ∧
    (st.originalRegValue = none →
      on_finished_run env st reg app c ap = (st, reg, [])) := by
  unfold on_finished_run
  constructor
  · intro hev
    revert hev
    split
    · intro hev
      exact absurd rfl hev
    · split
      · intro hev
        exact absurd rfl hev
      · intro _
        rfl
  · intro hn
    split
    · rfl
    · rename_i orig horig
      rw [hn] at horig
      exact Option.noConfusion horig

/-- Claim C5 witness: a restoring `afterExit` concretely issues events and
clears the state, by the theorem applied at that input. -/
theorem C5_witness :
    (on_finished_run envP ⟨some "C:/Old"⟩ regNew "app.exe" 0 true).2.2 ≠ [] ∧
    (on_finished_run envP ⟨some "C:/Old"⟩ regNew "app.exe" 0
      true).1.originalRegValue = none :=
  ⟨by decide,
   (C5_restore_at_most_once envP ⟨some "C:/Old"⟩ regNew "app.exe" 0 true).1
     (by decide)⟩

/-- Claim C6: when the observed registry value already equals the desired
game folder, `on_about_to_run` returns true, changes neither the state nor
the registry, and issues no write. -/
theorem C6_idempotent_no_write (canon : String → String) (env : Env)
    (st : ProxyState) (reg : Registry) (app : String) (ap : Bool)
    (hobs : (get_reg_value canon env reg).1 = some (get_game_folder canon env)) :
    (on_about_to_run canon env st reg app ap).1 = true ∧
    (on_about_to_run canon env st reg app ap).2.1 = st ∧
    (on_about_to_run canon env st reg app ap).2.2.1 = reg ∧
    (on_about_to_run canon env st reg app ap).2.2.2.any isWriteEv = false := by
  unfold on_about_to_run
  split
  · exact ⟨rfl, rfl, rfl, rfl⟩
  · split
    · rename_i hne
      exact absurd hobs hne
    · exact ⟨rfl, rfl, rfl, get_reg_value_events_no_write canon env reg⟩

/-- Claim C6 witness: the no-op at a registry already holding the game
folder. -/
theorem C6_witness :
    (on_about_to_run id envP ⟨none⟩ regNew "game.exe" true).1 = true ∧
    (on_about_to_run id envP ⟨none⟩ regNew "game.exe" true).2.1 = ⟨none⟩ ∧
    (on_about_to_run id envP ⟨none⟩ regNew "game.exe" true).2.2.1 = regNew ∧
    (on_about_to_run id envP ⟨none⟩ regNew "game.exe" true).2.2.2.any
      isWriteEv = false :=
  C6_idempotent_no_write id envP ⟨none⟩ regNew "game.exe" true (by decide)

/-- Claim C7: with the feature disabled, `on_about_to_run` returns true
and both hooks leave the state and registry untouched and issue no
registry access at all, for any exclusion list, game, pending state and
exit code. -/
theorem C7_disabled_bypass (canon : String → String) (env : Env)
    (st : ProxyState) (reg : Registry) (app app2 : String) (c : Int)
    (ap1 ap2 : Bool) (hdis : env.enabled = false) :
    on_about_to_run canon env st reg app ap1 = (true, st, reg, []) ∧
    on_finished_run env st reg app2 c ap2 = (st, reg, []) := by
  constructor
  · unfold on_about_to_run
    split
    · rfl
    · rename_i hg
      exact absurd (by simp [is_active, hdis]) hg
  · unfold on_finished_run
    split
    · rfl
    · split
      · rfl
      · rename_i hg
        exact absurd (by simp [is_active, hdis]) hg

/-- Claim C7 witness: the disabled bypass at a concrete pending state. -/
theorem C7_witness :
    on_about_to_run id envOff ⟨some "C:/Old"⟩ regOld "a.exe" true
      = (true, ⟨some "C:/Old"⟩, regOld, []) ∧
    on_finished_run envOff ⟨some "C:/Old"⟩ regOld "b.exe" 7 true
      = (⟨some "C:/Old"⟩, regOld, []) :=
  C7_disabled_bypass id envOff ⟨some "C:/Old"⟩ regOld "a.exe" "b.exe" 7
    true true rfl

/-- Claim C8: `on_finished_run` depends neither on the executable path nor
on the exit code: calls in identical states produce identical results, so
the exclusion list is never re-checked at exit time. -/
theorem C8_afterExit_insensitive (env : Env) (st : ProxyState)
    (reg : Registry) (a1 a2 : String) (c1 c2 : Int) (ap : Bool) :
    on_finished_run env st reg a1 c1 ap = on_finished_run env st reg a2 c2 ap :=
  rfl

/-- Claim C9: for a game with no table entry, `on_about_to_run` from an
empty state performs no registry access, leaves the state empty and the
registry untouched, and still allows the launch. -/
theorem C9_unsupported_game (canon : String → String) (env : Env)
    (reg : Registry) (app : String) (ap : Bool)
    (hun : get_game_reg_key env.gameName = none) :
    on_about_to_run canon env ⟨none⟩ reg app ap = (true, ⟨none⟩, reg, []) := by
  have hrv : get_reg_value canon env reg = (none, []) := by
    unfold get_reg_value
    rw [hun]
  have hsv : set_reg_value env reg (get_game_folder canon env) ap
      = (reg, []) := by
    unfold set_reg_value
    rw [hun]
  unfold on_about_to_run
  split
  · rfl
  · rw [hrv, hsv]
    split
    · rfl
    · rename_i hne
      exact absurd (by simp) hne

/-- Claim C9 witness: the bypass for the unsupported game `Starfield`. -/
theorem C9_witness :
    on_about_to_run id envUnsup ⟨none⟩ regOld "a.exe" true
      = (true, ⟨none⟩, regOld, []) :=
  C9_unsupported_game id envUnsup regOld "a.exe" true (by decide)

/-- Claim C10: an `afterExit` received while the feature is disabled
leaves a recorded original value latched and performs no registry access;
a later `afterExit` with the feature enabled (for a supported game) then
issues a restoring write with the retained value and clears the state. -/
theorem C10_disabled_exit_latch (env1 env2 : Env) (st : ProxyState)
    (reg reg2 : Registry) (a1 a2 : String) (c1 c2 : Int) (ap1 ap2 : Bool)
    (loc : Location) (p : String)
    (h1 : env1.enabled = false) (hp : st.originalRegValue = some p)
    (h2 : env2.enabled = true)
    (hloc : get_game_reg_key env2.gameName = some loc) :
    on_finished_run env1 st reg a1 c1 ap1 = (st, reg, []) ∧
    (on_finished_run env2 st reg2 a2 c2 ap2).2.2 = [RegEvent.write loc p] ∧
    (on_finished_run env2 st reg2 a2 c2 ap2).1.originalRegValue = none := by
  have hen2 : is_active env2 = true := h2
  refine ⟨on_finished_run_disabled env1 st reg a1 c1 ap1 h1, ?_, ?_⟩
  · rw [on_finished_run_restore env2 st reg2 a2 c2 ap2 p hp hen2]
    dsimp only
    rw [set_reg_value_eq env2 reg2 p ap2 loc hloc]
  · rw [on_finished_run_restore env2 st reg2 a2 c2 ap2 p hp hen2]

/-- Claim C10 witness: the latch at a concrete disabled exit followed by
an enabled exit. -/
theorem C10_witness :
    on_finished_run envOff ⟨some "C:/Old"⟩ regNew "a.exe" 1 true
      = (⟨some "C:/Old"⟩, regNew, []) ∧
    (on_finished_run envP ⟨some "C:/Old"⟩ regNew "b.exe" 2 true).2.2
      = [RegEvent.write locSkyrimSE "C:/Old"] ∧
    (on_finished_run envP ⟨some "C:/Old"⟩ regNew "b.exe" 2
      true).1.originalRegValue = none :=
  C10_disabled_exit_latch envOff envP ⟨some "C:/Old"⟩ regNew regNew
    "a.exe" "b.exe" 1 2 true true locSkyrimSE "C:/Old"
    rfl rfl rfl (by decide)
